import Mathlib

/-!
Shallow embedding of the OpenClaw desktop gateway controller, status parser,
shell quoting helper, credential prober and provider failover supervisor
(from `app/src/main/services/gatewayService.ts`, `wslService.ts`,
`providerSupervisor.ts`, `app/src/shared/fallback.ts` and the credential
service), together with theorems settling the frozen claims about them.

Raw process output is modelled as `List Char` (ASCII fragment of JS strings);
`JSON.parse` is modelled by a total fuel-based parser for the ASCII JSON
subset the tool emits; promise rejection of the process runner is modelled
with `Except`.
-/

/-- JS strings are modelled as lists of characters. -/
abbrev Str := List Char

/-- Convenience: turn a Lean string literal into the model type. -/
def str (s : String) : Str := s.toList

/-- The single-quote character (ASCII 39). -/
def sqc : Char := Char.ofNat 39

/-- The backslash character (ASCII 92). -/
def bsc : Char := Char.ofNat 92

/-- The double-quote character (ASCII 34). -/
def dqc : Char := Char.ofNat 34

/-- The opening curly bracket (ASCII 123). -/
def obr : Char := Char.ofNat 123

/-- The closing curly bracket (ASCII 125). -/
def cbr : Char := Char.ofNat 125

/-- The backtick character (ASCII 96). -/
def btk : Char := Char.ofNat 96

/-- Whitespace in the sense of the JS `\s` class and `String.prototype.trim`,
restricted to the ASCII fragment of the model (space, tab, LF, CR, VT, FF). -/
def jsWsB (c : Char) : Bool :=
  c = ' ' || c = '\t' || c = '\n' || c = '\r' || c = Char.ofNat 11 || c = Char.ofNat 12

/-- `String.prototype.trim`: strip leading and trailing whitespace. -/
def jsTrim (cs : Str) : Str :=
  ((cs.dropWhile jsWsB).reverse.dropWhile jsWsB).reverse

/-- ASCII lower-casing, for the `/i` regex flags. -/
def lcase (c : Char) : Char :=
  if 'A' ≤ c ∧ c ≤ 'Z' then Char.ofNat (c.toNat + 32) else c

/-- Boolean prefix test on character lists. -/
def isPre : Str → Str → Bool
  | [], _ => true
  | _ :: _, [] => false
  | p :: ps, c :: cs => if p = c then isPre ps cs else false

/-- Strip `pat` from the front of `cs` comparing case-insensitively,
returning the remainder on success. -/
def stripCiPre : Str → Str → Option Str
  | [], cs => some cs
  | _ :: _, [] => none
  | p :: ps, c :: cs => if lcase p = lcase c then stripCiPre ps cs else none

/-- `indexOf` for a single character. -/
def firstIdxOf (c : Char) (cs : Str) : Option Nat :=
  cs.findIdx? (· = c)

/-- `lastIndexOf` for a single character. -/
def lastIdxOf (c : Char) (cs : Str) : Option Nat :=
  match firstIdxOf c cs.reverse with
  | none => none
  | some k => some (cs.length - 1 - k)

/-! ## JSON values and a model of `JSON.parse`

`JSON.parse` is modelled by a total recursive-descent parser over the ASCII
subset (no `\uXXXX` escapes).  Numbers are kept as raw token text: the
services only ever test fields for being strings, booleans or objects. -/

inductive JVal where
  | str (s : Str)
  | bool (b : Bool)
  | num (tok : Str)
  | null
  | obj (fields : List (Str × JVal))
  | arr (elems : List JVal)

/-- JSON insignificant whitespace. -/
def jsonWs (c : Char) : Bool :=
  c = ' ' || c = '\t' || c = '\n' || c = '\r'

def jsonSkipWs (cs : Str) : Str := cs.dropWhile jsonWs

/-- Decode one escape character of a JSON string body. -/
def jsonEsc (e : Char) : Option Char :=
  if e = dqc then some dqc
  else if e = bsc then some bsc
  else if e = '/' then some '/'
  else if e = 'n' then some '\n'
  else if e = 't' then some '\t'
  else if e = 'r' then some '\r'
  else if e = 'b' then some (Char.ofNat 8)
  else if e = 'f' then some (Char.ofNat 12)
  else none

/-- Parse the body of a JSON string (after the opening quote), returning the
decoded content and the remainder after the closing quote. -/
def parseStrChars : Str → Str → Option (Str × Str)
  | [], _ => none
  | [c], acc => if c = dqc then some (acc.reverse, []) else none
  | c :: c2 :: cs, acc =>
    if c = dqc then some (acc.reverse, c2 :: cs)
    else if c = bsc then
      match jsonEsc c2 with
      | some d => parseStrChars cs (d :: acc)
      | none => none
    else parseStrChars (c2 :: cs) (c :: acc)

/-- Characters a JSON number token may contain (over-approximation; the
services never inspect numeric fields). -/
def isNumChar (c : Char) : Bool :=
  c.isDigit || c = '-' || c = '+' || c = '.' || c = 'e' || c = 'E'

mutual

/-- Parse one JSON value; `fuel` bounds nesting depth. -/
def parseVal : Nat → Str → Option (JVal × Str)
  | 0, _ => none
  | fuel + 1, cs =>
    let cs1 := jsonSkipWs cs
    match cs1 with
    | [] => none
    | c :: rest =>
      if c = dqc then
        match parseStrChars rest [] with
        | some (s, r) => some (JVal.str s, r)
        | none => none
      else if c = obr then
        match parseFieldList fuel rest with
        | some (fs, r) => some (JVal.obj fs, r)
        | none => none
      else if c = '[' then
        match parseElemList fuel rest with
        | some (vs, r) => some (JVal.arr vs, r)
        | none => none
      else if isPre (str "true") cs1 then some (JVal.bool true, cs1.drop 4)
      else if isPre (str "false") cs1 then some (JVal.bool false, cs1.drop 5)
      else if isPre (str "null") cs1 then some (JVal.null, cs1.drop 4)
      else if c = '-' || c.isDigit then
        let tok := cs1.takeWhile isNumChar
        if tok = [] then none else some (JVal.num tok, cs1.drop tok.length)
      else none

/-- Parse the fields of a JSON object (just after the opening brace). -/
def parseFieldList : Nat → Str → Option (List (Str × JVal) × Str)
  | 0, _ => none
  | fuel + 1, cs =>
    match jsonSkipWs cs with
    | [] => none
    | c :: rest => if c = cbr then some ([], rest) else parsePairList fuel (c :: rest)

/-- Parse one or more `"key": value` pairs followed by `,` or the closing
brace. -/
def parsePairList : Nat → Str → Option (List (Str × JVal) × Str)
  | 0, _ => none
  | fuel + 1, cs =>
    match jsonSkipWs cs with
    | [] => none
    | c :: rest =>
      if c = dqc then
        match parseStrChars rest [] with
        | none => none
        | some (k, r1) =>
          match jsonSkipWs r1 with
          | ':' :: r2 =>
            match parseVal fuel r2 with
            | none => none
            | some (v, r3) =>
              match jsonSkipWs r3 with
              | ',' :: r4 =>
                match parsePairList fuel r4 with
                | none => none
                | some (fs, r) => some ((k, v) :: fs, r)
              | c2 :: r5 => if c2 = cbr then some ([(k, v)], r5) else none
              | [] => none
          | _ => none
      else none

/-- Parse the elements of a JSON array (just after the opening bracket). -/
def parseElemList : Nat → Str → Option (List JVal × Str)
  | 0, _ => none
  | fuel + 1, cs =>
    match jsonSkipWs cs with
    | [] => none
    | c :: rest =>
      if c = ']' then some ([], rest)
      else
        match parseVal fuel (c :: rest) with
        | none => none
        | some (v, r1) =>
          match jsonSkipWs r1 with
          | ',' :: r2 =>
            match parseElemList fuel r2 with
            | none => none
            | some (vs, r) => some (v :: vs, r)
          | c2 :: r3 => if c2 = ']' then some ([v], r3) else none
          | [] => none

end

/-- Model of `JSON.parse`: parse a complete JSON document, requiring only
trailing whitespace after the value. -/
def jsonParse (cs : Str) : Option JVal :=
  match parseVal (cs.length + 2) cs with
  | some (v, rest) => if jsonSkipWs rest = [] then some v else none
  | none => none

/-- Field lookup on a parsed JSON object, with the last duplicate key winning
as in `JSON.parse`. -/
def objGet (fields : List (Str × JVal)) (k : Str) : Option JVal :=
  fields.foldl (fun acc f => if f.1 = k then some f.2 else acc) none

/-! ## Gateway status model (`shared/types.ts` and `gatewayService.ts`) -/

/-- `GatewayStatus` from `shared/types.ts`. -/
structure GatewayStatus where
  running : Bool
  url : Option Str
  pid : Option Nat
  error : Option Str
deriving DecidableEq, Repr

/-- `GatewayService.toDashboardUrl`: rewrite socket schemes to web schemes,
appending a trailing slash; other schemes pass through unchanged. -/
def toDashboardUrl (url : Str) : Str :=
  if isPre (str "ws://") url then str "http://" ++ url.drop 5 ++ ['/']
  else if isPre (str "wss://") url then str "https://" ++ url.drop 6 ++ ['/']
  else url

/-- `GatewayService.parseJsonObject`: trim, slice from the first opening to
the last closing brace, and attempt a JSON parse of the slice; `null` on any
failure (the `try/catch` around `JSON.parse` is the `none` branch). -/
def parseJsonObject (raw : Str) : Option (List (Str × JVal)) :=
  let text := jsTrim raw
  if text = [] then none
  else
    match firstIdxOf obr text, lastIdxOf cbr text with
    | some i, some j =>
      if j ≤ i then none
      else
        match jsonParse ((text.drop i).take (j + 1 - i)) with
        | some (JVal.obj fields) => some fields
        | _ => none
    | _, _ => none

/-- `GatewayService.asRecord`: a plain (non-array, non-null) object. -/
def asRecord : JVal → Option (List (Str × JVal))
  | JVal.obj fs => some fs
  | _ => none

/-- `value === true` on an optional JSON field. -/
def isTrueField (v : Option JVal) : Bool :=
  match v with
  | some (JVal.bool true) => true
  | _ => false

/-- `typeof v === "string"` field access. -/
def strField (fields : List (Str × JVal)) (k : Str) : Option Str :=
  match objGet fields k with
  | some (JVal.str s) => some s
  | _ => none

/-- The body of `parseStatusOutput` on a successfully extracted payload:
the direct `running` shape first, then the nested `gateway` and `rpc`
shapes. -/
def statusFromPayload (payload : List (Str × JVal)) : Option GatewayStatus :=
  match objGet payload (str "running") with
  | some (JVal.bool b) =>
    some { running := b
           url := (strField payload (str "url")).map toDashboardUrl
           pid := none
           error := strField payload (str "error") }
  | _ =>
    match (objGet payload (str "gateway")).bind asRecord with
    | some gw =>
      some { running := isTrueField (objGet gw (str "reachable"))
             url := if isTrueField (objGet gw (str "reachable")) then
                 (strField gw (str "url")).map toDashboardUrl
               else none
             pid := none
             error := if isTrueField (objGet gw (str "reachable")) then none
               else strField gw (str "error") }
    | none =>
      match (objGet payload (str "rpc")).bind asRecord with
      | some rpc =>
        some { running := isTrueField (objGet rpc (str "ok"))
               url := if isTrueField (objGet rpc (str "ok")) then
                   (strField rpc (str "url")).map toDashboardUrl
                 else none
               pid := none
               error := none }
      | none => none

/-- `GatewayService.parseStatusOutput`: structured JSON extraction. -/
def parseStatusOutput (raw : Str) : Option GatewayStatus :=
  match parseJsonObject raw with
  | none => none
  | some payload => statusFromPayload payload

/-! ## Text heuristics of `parseGatewayOutput` (the regex tests) -/

/-- Scan for the first position where the matcher succeeds. -/
def scanB (m : Str → Bool) : Str → Bool
  | [] => m []
  | c :: cs => m (c :: cs) || scanB m cs

/-- Scan for the first position where the matcher yields a capture. -/
def scanFirst (m : Str → Option Str) : Str → Option Str
  | [] => m []
  | c :: cs =>
    match m (c :: cs) with
    | some r => some r
    | none => scanFirst m cs

/-- Match `/RPC probe:\s*ok/i` at the current position. -/
def matchRpcAt (cs : Str) : Bool :=
  match stripCiPre (str "RPC probe:") cs with
  | some r => (stripCiPre (str "ok") (r.dropWhile jsWsB)).isSome
  | none => false

/-- Match `/Listening:\s*[0-9.]+:[0-9]+/i` at the current position. -/
def matchListenAt (cs : Str) : Bool :=
  match stripCiPre (str "Listening:") cs with
  | some r =>
    let r1 := r.dropWhile jsWsB
    let ds := r1.takeWhile (fun c => c.isDigit || c = '.')
    if ds = [] then false
    else
      match r1.drop ds.length with
      | ':' :: r2 => (r2.takeWhile Char.isDigit) ≠ []
      | _ => false
  | none => false

/-- Shared tail of the JSON-looking heuristics: `\s*:\s*true` (`/i`). -/
def matchColonTrue (r : Str) : Bool :=
  match r.dropWhile jsWsB with
  | ':' :: r2 => (stripCiPre (str "true") (r2.dropWhile jsWsB)).isSome
  | _ => false

/-- Match `/"reachable"\s*:\s*true/i` at the current position. -/
def matchReachTrueAt (cs : Str) : Bool :=
  match stripCiPre (str "\"reachable\"") cs with
  | some r => matchColonTrue r
  | none => false

/-- Match `/"ok"\s*:\s*true/i` at the current position. -/
def matchOkTrueAt (cs : Str) : Bool :=
  match stripCiPre (str "\"ok\"") cs with
  | some r => matchColonTrue r
  | none => false

/-- The `isRunning` disjunction of `parseGatewayOutput`. -/
def isRunningB (text : Str) : Bool :=
  scanB matchRpcAt text || scanB matchListenAt text ||
    scanB matchReachTrueAt text || scanB matchOkTrueAt text

/-- Match `https?:\/\/[^\s]+` at the current position, returning the token. -/
def matchUrlAt (cs : Str) : Option Str :=
  let tok := cs.takeWhile (fun c => !(jsWsB c))
  if isPre (str "http://") (tok.map lcase) ∧ 7 < tok.length then some tok
  else if isPre (str "https://") (tok.map lcase) ∧ 8 < tok.length then some tok
  else none

/-- Match `/Dashboard:\s*(https?:\/\/[^\s]+)/i` at the current position,
returning the captured URL. -/
def matchDashAt (cs : Str) : Option Str :=
  match stripCiPre (str "Dashboard:") cs with
  | some r => matchUrlAt (r.dropWhile jsWsB)
  | none => none

/-- The `dashboardUrl` extraction of `parseGatewayOutput`. -/
def extractDashboardUrl (text : Str) : Option Str :=
  match scanFirst matchDashAt text with
  | some u => some u
  | none => scanFirst matchUrlAt text

/-- `GatewayService.parseGatewayOutput`: structured parse first, then the
text heuristics; always returns a status. -/
def parseGatewayOutput (raw : Str) : GatewayStatus :=
  match parseStatusOutput raw with
  | some s => s
  | none =>
    let text := jsTrim raw
    if text = [] then { running := false, url := none, pid := none, error := none }
    else
      let dashboardUrl := extractDashboardUrl text
      let isRunning := isRunningB text
      { running := isRunning
        url := if isRunning then dashboardUrl.map toDashboardUrl else none
        pid := none
        error := if isRunning then none else some text }

/-! ## Gateway controller (`GatewayService.start/stop/status`)

Each `wslService.runBash` invocation is one process execution.  Outcomes of
successive executions are supplied by an oracle `Env` indexed by call order;
a promise rejection of `runProcess` (timeout or spawn failure) is an
`Except.error`, and — exactly as in the source, which has no `try`/`catch`
around these calls — it short-circuits the whole operation. -/

/-- `runProcess` failures: the two rejection paths of the process runner. -/
inductive PErr where
  | timeout
  | launchError
deriving DecidableEq, Repr

/-- `CommandResult` from the process runner. -/
structure CmdRes where
  stdout : Str
  stderr : Str
  exitCode : Int
  durationMs : Nat
deriving DecidableEq, Repr

/-- Outcomes of the successive `runBash` calls, in call order. -/
def Env := Nat → Except PErr CmdRes

/-- The distinct shell scripts the gateway service runs (by rôle, carrying
the resolved CLI path where the script interpolates it). -/
inductive Cmd where
  | resolve
  | statusJson (path : Str)
  | gatewayStatus (path : Str)
  | startJson (path : Str)
  | fallbackRun (path : Str)
  | stopSeq (path : Str)
deriving DecidableEq, Repr

/-- `GatewayService.resolveOpenClawPath`: one `runBash`; `null` when the
lookup script exits nonzero or prints nothing. -/
def resolveCall (env : Env) (n : Nat) :
    Except PErr (Option Str × Nat × List Cmd) :=
  match env n with
  | Except.error e => Except.error e
  | Except.ok r =>
    if r.exitCode ≠ 0 then Except.ok (none, n + 1, [Cmd.resolve])
    else
      let v := jsTrim r.stdout
      Except.ok (if v = [] then none else some v, n + 1, [Cmd.resolve])

/-- `GatewayService.readGatewayStatus`: `status --json` first and, only when
that is unparseable, the `gateway status` fallback. -/
def readGatewayStatusCall (path : Str) (env : Env) (n : Nat) :
    Except PErr (GatewayStatus × Nat × List Cmd) :=
  match env n with
  | Except.error e => Except.error e
  | Except.ok r =>
    match parseStatusOutput r.stdout with
    | some s => Except.ok (s, n + 1, [Cmd.statusJson path])
    | none =>
      match env (n + 1) with
      | Except.error e => Except.error e
      | Except.ok r2 =>
        Except.ok (parseGatewayOutput r2.stdout, n + 2,
          [Cmd.statusJson path, Cmd.gatewayStatus path])

/-- The "openclaw CLI not found in WSL." error text. -/
def notFoundMsg : Str := str "openclaw CLI not found in WSL."

/-- `GatewayService.status`. -/
def statusCall (env : Env) (n : Nat) :
    Except PErr (GatewayStatus × Nat × List Cmd) :=
  match resolveCall env n with
  | Except.error e => Except.error e
  | Except.ok (none, m, tr) =>
    Except.ok ({ running := false, url := none, pid := none, error := some notFoundMsg }, m, tr)
  | Except.ok (some path, m, tr) =>
    match readGatewayStatusCall path env m with
    | Except.error e => Except.error e
    | Except.ok (s, k, tr2) => Except.ok (s, k, tr ++ tr2)

/-- The `startError` extraction in `GatewayService.start`: a string `error`
field of the parsed payload that is nonempty after trimming. -/
def startErrOf (payload : Option (List (Str × JVal))) : Option Str :=
  match payload with
  | none => none
  | some fields =>
    match strField fields (str "error") with
    | some e => if jsTrim e = [] then none else some (jsTrim e)
    | none => none

/-- `GatewayService.start`: resolve, return early when already running, try
the tool's own `gateway start --json`, re-query, fall back to a detached
`gateway run`, re-query, and compose the most specific error on failure. -/
def startCall (env : Env) (n : Nat) :
    Except PErr (GatewayStatus × Nat × List Cmd) :=
  match resolveCall env n with
  | Except.error e => Except.error e
  | Except.ok (none, m, tr) =>
    Except.ok ({ running := false, url := none, pid := none, error := some notFoundMsg }, m, tr)
  | Except.ok (some path, m, tr) =>
    match readGatewayStatusCall path env m with
    | Except.error e => Except.error e
    | Except.ok (current, k, tr2) =>
      if current.running then Except.ok (current, k, tr ++ tr2)
      else
        match env k with
        | Except.error e => Except.error e
        | Except.ok sa =>
          let startError := startErrOf (parseJsonObject (sa.stdout ++ '\n' :: sa.stderr))
          match readGatewayStatusCall path env (k + 1) with
          | Except.error e => Except.error e
          | Except.ok (afterService, k2, tr3) =>
            if afterService.running then
              Except.ok (afterService, k2, tr ++ tr2 ++ [Cmd.startJson path] ++ tr3)
            else
              match env k2 with
              | Except.error e => Except.error e
              | Except.ok _fb =>
                match readGatewayStatusCall path env (k2 + 1) with
                | Except.error e => Except.error e
                | Except.ok (afterFallback, k3, tr4) =>
                  let trAll := tr ++ tr2 ++ [Cmd.startJson path] ++ tr3 ++
                    [Cmd.fallbackRun path] ++ tr4
                  if afterFallback.running then Except.ok (afterFallback, k3, trAll)
                  else
                    Except.ok ((⟨false, none, none,
                      some (startError.getD (afterFallback.error.getD
                        (str "Failed to start OpenClaw gateway.")))⟩ : GatewayStatus), k3, trAll)

/-- `GatewayService.stop`: the best-effort stop script, then a status parse
of its output; reports still-running rather than lying. -/
def stopCall (env : Env) (n : Nat) :
    Except PErr (GatewayStatus × Nat × List Cmd) :=
  match resolveCall env n with
  | Except.error e => Except.error e
  | Except.ok (none, m, tr) =>
    Except.ok ({ running := false, url := none, pid := none, error := none }, m, tr)
  | Except.ok (some path, m, tr) =>
    match env m with
    | Except.error e => Except.error e
    | Except.ok r =>
      let trAll := tr ++ [Cmd.stopSeq path]
      if r.exitCode ≠ 0 then
        Except.ok ((⟨false, none, none,
          some (if r.stderr = [] then str "Gateway stop returned an error."
            else r.stderr)⟩ : GatewayStatus), m + 1, trAll)
      else
        match parseStatusOutput r.stdout with
        | some parsed =>
          if parsed.running then
            Except.ok ((⟨parsed.running, parsed.url, parsed.pid,
              some (str "Gateway still appears to be running.")⟩ : GatewayStatus), m + 1, trAll)
          else
            Except.ok ((⟨false, parsed.url, none, none⟩ : GatewayStatus), m + 1, trAll)
        | none =>
          Except.ok ({ running := false, url := none, pid := none, error := none },
            m + 1, trAll)

/-! ## Shell quoting (`wslService.ts`) and a POSIX tokenizer -/

/-- The `value.replace(/'/g, ...)` step of `bashQuote`: each single quote
becomes quote, backslash, quote, quote. -/
def quoteRep : Str → Str
  | [] => []
  | c :: cs =>
    if c = sqc then sqc :: bsc :: sqc :: sqc :: quoteRep cs else c :: quoteRep cs

/-- `bashQuote` from `wslService.ts`. -/
def bashQuote (value : Str) : Str :=
  sqc :: quoteRep value ++ [sqc]

/-- Shell field-splitting whitespace (the default IFS). -/
def shWs (c : Char) : Bool :=
  c = ' ' || c = '\t' || c = '\n'

/-- Quoting state of the POSIX tokenizer (`escNormal`/`escDouble` are the
states right after a backslash outside/inside double quotes). -/
inductive QMode where
  | normal
  | single
  | double
  | escNormal
  | escDouble
deriving DecidableEq, Repr

/-- Close the current word, if one has started. -/
def flushWord (cur : Option Str) (acc : List Str) : List Str :=
  match cur with
  | none => acc
  | some w => w.reverse :: acc

/-- A POSIX-shell argument tokenizer: splits a command line into words,
honouring single quotes (fully literal), double quotes (with backslash
escapes for quote, backslash, dollar and backtick) and unquoted backslash
escapes; `none` on unterminated quoting or a trailing backslash.  `cur` is
the current word reversed (`none` when no word has started), `acc` holds
finished words reversed. -/
def shellSplitAux : Str → QMode → Option Str → List Str → Option (List Str)
  | [], QMode.normal, cur, acc => some (flushWord cur acc).reverse
  | [], QMode.single, _, _ => none
  | [], QMode.double, _, _ => none
  | [], QMode.escNormal, _, _ => none
  | [], QMode.escDouble, _, _ => none
  | c :: cs, QMode.normal, cur, acc =>
    if c = sqc then shellSplitAux cs QMode.single (some (cur.getD [])) acc
    else if c = dqc then shellSplitAux cs QMode.double (some (cur.getD [])) acc
    else if c = bsc then shellSplitAux cs QMode.escNormal (some (cur.getD [])) acc
    else if shWs c then shellSplitAux cs QMode.normal none (flushWord cur acc)
    else shellSplitAux cs QMode.normal (some (c :: cur.getD [])) acc
  | c :: cs, QMode.escNormal, cur, acc =>
    shellSplitAux cs QMode.normal (some (c :: cur.getD [])) acc
  | c :: cs, QMode.single, cur, acc =>
    if c = sqc then shellSplitAux cs QMode.normal cur acc
    else shellSplitAux cs QMode.single (some (c :: cur.getD [])) acc
  | c :: cs, QMode.double, cur, acc =>
    if c = dqc then shellSplitAux cs QMode.normal cur acc
    else if c = bsc then shellSplitAux cs QMode.escDouble cur acc
    else shellSplitAux cs QMode.double (some (c :: cur.getD [])) acc
  | c :: cs, QMode.escDouble, cur, acc =>
    if c = dqc || c = bsc || c = '$' || c = btk then
      shellSplitAux cs QMode.double (some (c :: cur.getD [])) acc
    else shellSplitAux cs QMode.double (some (c :: bsc :: cur.getD [])) acc

/-- Split a shell command line into its argument words. -/
def shellSplit (cs : Str) : Option (List Str) :=
  shellSplitAux cs QMode.normal none []

/-! ## Provider fallback (`shared/fallback.ts`) -/

/-- `ProviderId` from `shared/types.ts`. -/
inductive ProviderId where
  | deepseek
  | openai
  | anthropic
  | perplexity
deriving DecidableEq, Repr

/-- `ProviderHealth` from `shared/types.ts`. -/
structure ProviderHealth where
  provider : ProviderId
  ok : Bool
  latencyMs : Nat
  message : Option Str
deriving DecidableEq, Repr

/-- The fixed `PRIORITY` order of `shared/fallback.ts`. -/
def PRIORITY : List ProviderId :=
  [ProviderId.deepseek, ProviderId.openai, ProviderId.anthropic]

/-- The `healthy` set built by `chooseBestProvider` (as the list of members). -/
def healthyProviders (health : List ProviderHealth) : List ProviderId :=
  ((health.filter (fun e => e.ok)).map (fun e => e.provider)).filter
    (fun p => p ≠ ProviderId.perplexity)

/-- `chooseBestProvider` from `shared/fallback.ts`. -/
def chooseBestProvider (health : List ProviderHealth) : Option ProviderId :=
  PRIORITY.find? (fun p => (healthyProviders health).contains p)

/-- `shouldFailover` from `shared/fallback.ts` (`failureCount >= threshold`;
the source defaults `threshold` to 3 and every caller uses that default). -/
def shouldFailover (failureCount threshold : Nat) : Bool :=
  decide (threshold ≤ failureCount)

/-! ## Provider supervisor (`providerSupervisor.ts`)

`runCheck` is embedded as a pure transition function from the supervisor's
in-memory state and the tick's inputs (the configured list, the fresh health
snapshot, the `initializeOnly` flag and the current `searchEnabled` setting)
to the successor state plus the ordered list of externally visible actions
the tick performs. -/

/-- The supervisor's process-lifetime state. -/
structure SupState where
  failureCounts : ProviderId → Nat
  activeProvider : Option ProviderId

/-- Externally visible effects of one supervisor tick, in execution order. -/
inductive SupAction where
  | applyProfile (enabledProviders : List ProviderId) (defaultModel : Str)
      (fallbackChain : List ProviderId) (searchEnabled : Bool)
  | notify (oldProvider newProvider : ProviderId)
  | gatewayStop
  | gatewayStart
deriving DecidableEq, Repr

/-- `DEFAULT_MODEL_BY_PROVIDER` from `providerSupervisor.ts`. -/
def DEFAULT_MODEL_BY_PROVIDER : ProviderId → Str
  | ProviderId.deepseek => str "deepseek-chat"
  | ProviderId.openai => str "gpt-4.1-mini"
  | ProviderId.anthropic => str "claude-3-5-haiku-latest"
  | ProviderId.perplexity => str "sonar"

/-- Pointwise update of a failure-count map. -/
def updateCount (f : ProviderId → Nat) (p : ProviderId) (n : Nat) :
    ProviderId → Nat :=
  fun q => if q = p then n else f q

/-- `!activeHealth?.ok` for the first snapshot entry of the active provider
(a missing entry counts as unhealthy). -/
def activeOkIn (health : List ProviderHealth) (active : ProviderId) : Bool :=
  match health.find? (fun e => e.provider = active) with
  | some e => e.ok
  | none => false

/-- The actions of the failover branch of `runCheck`, in execution order:
`applyProvider` (one `applyProfile` call), the notification naming the old
and the new provider, then the gateway restart (stop, then start). -/
def failoverActions (configured : List ProviderId) (searchEnabled : Bool)
    (active best : ProviderId) : List SupAction :=
  [SupAction.applyProfile configured (DEFAULT_MODEL_BY_PROVIDER best) PRIORITY searchEnabled,
   SupAction.notify active best,
   SupAction.gatewayStop,
   SupAction.gatewayStart]

/-- `ProviderSupervisor.runCheck` (the body of the `try`; collaborator calls
are recorded as actions and assumed not to throw). -/
def runCheck (initializeOnly : Bool) (configured : List ProviderId)
    (health : List ProviderHealth) (searchEnabled : Bool) (st : SupState) :
    SupState × List SupAction :=
  match chooseBestProvider health with
  | none => (st, [])
  | some best =>
    let st1 : SupState :=
      if st.activeProvider.isNone then ⟨st.failureCounts, some best⟩ else st
    match st1.activeProvider with
    | none => (st1, [])
    | some active =>
      if activeOkIn health active then
        (⟨updateCount st1.failureCounts active 0, st1.activeProvider⟩, [])
      else
        let nextCount := st1.failureCounts active + 1
        if initializeOnly = false ∧ shouldFailover nextCount 3 = true ∧ best ≠ active then
          (⟨fun _ => 0, some best⟩, failoverActions configured searchEnabled active best)
        else
          (⟨updateCount st1.failureCounts active nextCount, st1.activeProvider⟩, [])

/-- The provider active at failure-accounting time: the stored one, or on a
first run the freshly adopted best provider. -/
def bootActive (health : List ProviderHealth) (st : SupState) : Option ProviderId :=
  if st.activeProvider.isNone then chooseBestProvider health else st.activeProvider

/-- The exact condition under which a tick fails over, as the code tests it. -/
def failoverFires (initializeOnly : Bool) (health : List ProviderHealth)
    (st : SupState) (best active : ProviderId) : Prop :=
  activeOkIn health active = false ∧ initializeOnly = false ∧
    shouldFailover (st.failureCounts active + 1) 3 = true ∧ best ≠ active

/-! ## Credential prober (`CredentialService.verify`) -/

/-- `VerifyResult` from `shared/types.ts`. -/
structure VerifyResult where
  ok : Bool
  canSkip : Bool
  provider : ProviderId
  statusCode : Option Nat
  latencyMs : Nat
  message : Str
deriving DecidableEq, Repr

/-- One outbound verification request (method, URL and whether the key is
embedded in the auth header), as built by the provider-specific helpers. -/
structure ProbeReq where
  provider : ProviderId
  urlText : Str
  usesPost : Bool
  key : Str
deriving DecidableEq, Repr

/-- Outcome of the single `fetch` of `runProbe`: a response with an HTTP
status (and observed latency), or a thrown network/timeout error. -/
inductive NetOutcome where
  | resp (status : Nat) (latencyMs : Nat)
  | netError (message : Str) (latencyMs : Nat)
deriving DecidableEq, Repr

/-- The request each provider-specific helper issues. -/
def reqFor (provider : ProviderId) (key : Str) : ProbeReq :=
  match provider with
  | ProviderId.deepseek =>
    ⟨provider, str "https://api.deepseek.com/v1/chat/completions", true, key⟩
  | ProviderId.openai =>
    ⟨provider, str "https://api.openai.com/v1/models", false, key⟩
  | ProviderId.anthropic =>
    ⟨provider, str "https://api.anthropic.com/v1/messages", true, key⟩
  | ProviderId.perplexity =>
    ⟨provider, str "https://api.perplexity.ai/chat/completions", true, key⟩

/-- Decimal digits of a number, for the `(HTTP ${status})` message text. -/
def natDigits (n : Nat) : Str :=
  (Nat.toDigits 10 n)

/-- `runProbe`'s classification of the fetch outcome. -/
def classifyProbe (provider : ProviderId) (outcome : NetOutcome) : VerifyResult :=
  match outcome with
  | NetOutcome.resp status lat =>
    if 200 ≤ status ∧ status < 300 then
      ⟨true, false, provider, some status, lat, str "Key verified."⟩
    else
      let hint :=
        if status = 401 ∨ status = 403 then
          str "Authentication failed. Check key value and permissions."
        else str "Invalid key or provider response."
      ⟨false, false, provider, some status, lat,
        hint ++ str " (HTTP " ++ natDigits status ++ str ")"⟩
  | NetOutcome.netError msg lat => ⟨false, true, provider, none, lat, msg⟩

/-- `CredentialService.verify`: the blank-key guard, then exactly one probe
whose outcome the oracle `net` supplies; returns the result together with
the list of outbound requests issued. -/
def verify (provider : ProviderId) (key : Str) (net : ProbeReq → NetOutcome) :
    VerifyResult × List ProbeReq :=
  let cleaned := jsTrim key
  if cleaned = [] then
    (⟨false, false, provider, none, 0, str "API key is required."⟩, [])
  else
    let req := reqFor provider cleaned
    (classifyProbe provider (net req), [req])

/-! ## Helper lemmas -/

/-- Every character of the trimmed text occurs in the original text. -/
theorem mem_of_mem_jsTrim {c : Char} {raw : Str} (h : c ∈ jsTrim raw) : c ∈ raw := by
  unfold jsTrim at h
  rw [List.mem_reverse] at h
  have h2 := List.dropWhile_subset (l := (raw.dropWhile jsWsB).reverse) jsWsB h
  rw [List.mem_reverse] at h2
  exact List.dropWhile_subset jsWsB h2

/-- A character absent from the text has no first index. -/
theorem firstIdxOf_eq_none {c : Char} {cs : Str} (h : c ∉ cs) :
    firstIdxOf c cs = none := by
  unfold firstIdxOf
  rw [List.findIdx?_eq_none_iff]
  intro x hx
  simp only [decide_eq_false_iff_not]
  intro he
  exact h (he ▸ hx)

/-- `parseJsonObject` fails when the opening brace never occurs. -/
theorem parseJsonObject_eq_none_of_no_obr {raw : Str} (h : obr ∉ raw) :
    parseJsonObject raw = none := by
  unfold parseJsonObject
  by_cases he : jsTrim raw = []
  · simp [he]
  · have : firstIdxOf obr (jsTrim raw) = none :=
      firstIdxOf_eq_none (fun hm => h (mem_of_mem_jsTrim hm))
    simp [he, this]

/-! ## Claim C8: `chooseBestProvider` -/

/-- The snapshot has an `ok` entry for `p`. -/
def hasOkEntryP (health : List ProviderHealth) (p : ProviderId) : Prop :=
  ∃ e, e ∈ health ∧ e.provider = p ∧ e.ok = true

instance (health : List ProviderHealth) (p : ProviderId) :
    Decidable (hasOkEntryP health p) := by
  unfold hasOkEntryP
  exact List.decidableBEx _ health

/-- Membership in the healthy set, characterised. -/
theorem mem_healthyProviders {health : List ProviderHealth} {p : ProviderId} :
    p ∈ healthyProviders health ↔ hasOkEntryP health p ∧ p ≠ ProviderId.perplexity := by
  unfold healthyProviders hasOkEntryP
  simp only [List.mem_filter, List.mem_map, decide_eq_true_eq]
  tauto

/-- Claim C8 — `chooseBestProvider` returns the first provider in the fixed
priority order `deepseek, openai, anthropic` with an `ok` health entry,
`none` when none of those three has one, never `perplexity`, and on the
snapshot `[{openai, true}, {deepseek, false}, {anthropic, true}]` (with a
healthy `perplexity` present) it returns `openai`. -/
theorem chooseBestProvider_spec :
    (∀ health : List ProviderHealth,
      chooseBestProvider health =
        (if hasOkEntryP health ProviderId.deepseek then some ProviderId.deepseek
         else if hasOkEntryP health ProviderId.openai then some ProviderId.openai
         else if hasOkEntryP health ProviderId.anthropic then some ProviderId.anthropic
         else none))
    ∧ (∀ (health : List ProviderHealth) (p : ProviderId),
        chooseBestProvider health = some p → p ≠ ProviderId.perplexity)
    ∧ chooseBestProvider
        [⟨ProviderId.openai, true, 100, none⟩, ⟨ProviderId.deepseek, false, 300, none⟩,
         ⟨ProviderId.anthropic, true, 120, none⟩, ⟨ProviderId.perplexity, true, 95, none⟩] =
      some ProviderId.openai := by
  have hchar : ∀ (health : List ProviderHealth) (p : ProviderId),
      p ≠ ProviderId.perplexity →
      ((healthyProviders health).contains p = true ↔ hasOkEntryP health p) := by
    intro health p hne
    rw [List.contains_iff_exists_mem_beq]
    constructor
    · rintro ⟨q, hq, hbeq⟩
      have : p = q := by
        cases p <;> cases q <;> simp_all
      exact (mem_healthyProviders.mp (this ▸ hq)).1
    · intro hok
      exact ⟨p, mem_healthyProviders.mpr ⟨hok, hne⟩, by cases p <;> simp⟩
  refine ⟨?_, ?_, by decide⟩
  · intro health
    unfold chooseBestProvider PRIORITY
    simp only [List.find?]
    by_cases hd : hasOkEntryP health ProviderId.deepseek
    · rw [(hchar health ProviderId.deepseek (by simp)).mpr hd]
      simp [hd]
    · rw [Bool.eq_false_iff.mpr
        (fun hb => hd ((hchar health ProviderId.deepseek (by simp)).mp hb))]
      by_cases ho : hasOkEntryP health ProviderId.openai
      · rw [(hchar health ProviderId.openai (by simp)).mpr ho]
        simp [hd, ho]
      · rw [Bool.eq_false_iff.mpr
          (fun hb => ho ((hchar health ProviderId.openai (by simp)).mp hb))]
        by_cases ha : hasOkEntryP health ProviderId.anthropic
        · rw [(hchar health ProviderId.anthropic (by simp)).mpr ha]
          simp [hd, ho, ha]
        · rw [Bool.eq_false_iff.mpr
            (fun hb => ha ((hchar health ProviderId.anthropic (by simp)).mp hb))]
          simp [hd, ho, ha]
  · intro health p hp
    unfold chooseBestProvider at hp
    have := List.mem_of_find?_eq_some hp
    intro hcon
    rw [hcon] at this
    simp [PRIORITY] at this

/-- Witness for C8: a concrete snapshot where only `openai` is healthy; the
second conjunct of the theorem applies and rules out `perplexity`. -/
theorem chooseBestProvider_spec_witness :
    ProviderId.openai ≠ ProviderId.perplexity :=
  chooseBestProvider_spec.2.1 [⟨ProviderId.openai, true, 50, none⟩] ProviderId.openai (by decide)

/-! ## Claim C9: blank-key verification -/

/-- Claim C9 — for every provider, key that is blank after trimming, and
network behaviour, `verify` rejects with `ok = false`, `canSkip = false`
(latency 0, message "API key is required.") and issues no outbound request. -/
theorem verify_blank_key (provider : ProviderId) (key : Str)
    (net : ProbeReq → NetOutcome) (h : jsTrim key = []) :
    verify provider key net =
      (⟨false, false, provider, none, 0, str "API key is required."⟩, []) := by
  unfold verify
  simp [h]

/-- Witness for C9: `verify("openai", "")` with an always-succeeding network
oracle still rejects without issuing a request. -/
theorem verify_blank_key_witness :
    verify ProviderId.openai [] (fun _ => NetOutcome.resp 200 1) =
      (⟨false, false, ProviderId.openai, none, 0, str "API key is required."⟩, []) :=
  verify_blank_key ProviderId.openai [] (fun _ => NetOutcome.resp 200 1) rfl

/-! ## Claim C10: totality of the status-parsing layer -/

/-- Claim C10 — the parsing layer is total and defensive: a successful
`parseJsonObject` implies the brace guard held (first `{` strictly before
last `}`); on `"}{"` (first `{` after last `}`) it returns `null` and
`parseGatewayOutput` still returns a well-formed non-running status carrying
the raw text as error; a non-JSON brace-enclosed substring also yields
`null`; and empty input yields the bare non-running status. -/
theorem parse_layer_total :
    (∀ (raw : Str) (fields : List (Str × JVal)), parseJsonObject raw = some fields →
      ∃ i j, firstIdxOf obr (jsTrim raw) = some i ∧ lastIdxOf cbr (jsTrim raw) = some j ∧
        i < j)
    ∧ parseJsonObject (str "\x7d\x7b") = none
    ∧ parseGatewayOutput (str "\x7d\x7b") =
        ⟨false, none, none, some (str "\x7d\x7b")⟩
    ∧ parseJsonObject (str "\x7bnot json\x7d") = none
    ∧ parseGatewayOutput [] = ⟨false, none, none, none⟩ := by
  refine ⟨?_, rfl, rfl, rfl, rfl⟩
  intro raw fields h
  unfold parseJsonObject at h
  by_cases he : jsTrim raw = []
  · simp [he] at h
  · simp only [if_neg he] at h
    cases hfi : firstIdxOf obr (jsTrim raw) with
    | none => rw [hfi] at h; simp at h
    | some i =>
      cases hfj : lastIdxOf cbr (jsTrim raw) with
      | none => rw [hfi, hfj] at h; simp at h
      | some j =>
        rw [hfi, hfj] at h
        by_cases hij : j ≤ i
        · simp [hij] at h
        · exact ⟨i, j, rfl, rfl, Nat.lt_of_not_le hij⟩

/-- Witness for C10: a well-formed payload makes `parseJsonObject` succeed,
so the brace guard held on it. -/
theorem parse_layer_total_witness :
    ∃ i j, firstIdxOf obr (jsTrim (str "\x7b\"running\":false\x7d")) = some i ∧
      lastIdxOf cbr (jsTrim (str "\x7b\"running\":false\x7d")) = some j ∧ i < j :=
  parse_layer_total.1 (str "\x7b\"running\":false\x7d")
    [(str "running", JVal.bool false)] rfl

/-! ## Claim C5: the no-signal heuristic fallback -/

/-- Claim C5 — for raw text containing no braces and matching none of the
running heuristics, `parseGatewayOutput` reports not running with the
trimmed text as error, or no error at all when the text trims to empty. -/
theorem parseGatewayOutput_no_signal (raw : Str)
    (hob : obr ∉ raw) (_hcb : cbr ∉ raw)
    (hsig : isRunningB (jsTrim raw) = false) :
    parseGatewayOutput raw =
      ⟨false, none, none,
        if jsTrim raw = [] then none else some (jsTrim raw)⟩ := by
  have hjson : parseJsonObject raw = none := parseJsonObject_eq_none_of_no_obr hob
  have hstat : parseStatusOutput raw = none := by
    unfold parseStatusOutput
    rw [hjson]
  unfold parseGatewayOutput
  rw [hstat]
  by_cases he : jsTrim raw = []
  · simp [he]
  · simp [he, hsig]

/-- Witness for C5: plain prose output is reported as an error verbatim. -/
theorem parseGatewayOutput_no_signal_witness :
    parseGatewayOutput (str "gateway is stopped") =
      ⟨false, none, none,
        if jsTrim (str "gateway is stopped") = [] then none
        else some (jsTrim (str "gateway is stopped"))⟩ :=
  parseGatewayOutput_no_signal (str "gateway is stopped")
    (by decide) (by decide) (by decide)

/-! ## Claim C3: the `wss://` rewrite -/

/-- The parsed form of `{"running":true,"url":"wss://h:1/"}`. -/
def wssPayload : List (Str × JVal) :=
  [(str "running", JVal.bool true), (str "url", JVal.str (str "wss://h:1/"))]

/-- Counterexample to C3 as stated: on the exact payload
`{"running":true,"url":"wss://h:1/"}` the parser yields
`url = "https://h:1//"` — the rewrite appends a slash to a path that already
ends in one — not the claimed `"https://h:1/"`. -/
theorem toDashboardUrl_wss_counterexample :
    parseJsonObject (str "\x7b\"running\":true,\"url\":\"wss://h:1/\"\x7d") =
        some wssPayload ∧
      parseStatusOutput (str "\x7b\"running\":true,\"url\":\"wss://h:1/\"\x7d") =
        some ⟨true, some (str "https://h:1//"), none, none⟩ ∧
      (str "https://h:1//" : Str) ≠ str "https://h:1/" := by
  refine ⟨rfl, rfl, by decide⟩

/-- Claim C3 as amended — for every raw text whose brace-enclosed substring
parses as `{"running":true,"url":"wss://h:1/"}`, `parseStatusOutput` returns
`running = true` with `url = "https://h:1//"`: the socket scheme is
rewritten to its web equivalent and a trailing slash is appended (doubling
the separator when the source URL already ends in one). -/
theorem parseStatus_wss_rewrite (raw : Str)
    (h : parseJsonObject raw = some wssPayload) :
    parseStatusOutput raw =
      some ⟨true, some (str "https://h:1//"), none, none⟩ := by
  unfold parseStatusOutput
  rw [h]
  rfl

/-- Witness for C3 (amended): the literal payload text. -/
theorem parseStatus_wss_rewrite_witness :
    parseStatusOutput (str "\x7b\"running\":true,\"url\":\"wss://h:1/\"\x7d") =
      some ⟨true, some (str "https://h:1//"), none, none⟩ :=
  parseStatus_wss_rewrite (str "\x7b\"running\":true,\"url\":\"wss://h:1/\"\x7d") rfl

/-! ## Claim C2: the `url`/`error` presence invariant -/

/-- A status-query environment whose CLI lookup succeeds and whose status
command prints `{"running":false,"url":"http://h"}`. -/
def envRunningFalseUrl : Env := fun n =>
  if n = 0 then Except.ok ⟨str "/usr/bin/openclaw", [], 0, 5⟩
  else Except.ok ⟨str "\x7b\"running\":false,\"url\":\"http://h\"\x7d", [], 0, 5⟩

/-- Counterexample to C2 as stated: a `status()` run over a payload with a
boolean `running: false` and a string `url` returns a `GatewayStatus` whose
`url` is present while `running` is false — the direct-shape branch passes
`url` through without gating it on `running`. -/
theorem status_url_invariant_counterexample :
    statusCall envRunningFalseUrl 0 =
        Except.ok (⟨false, some (str "http://h"), none, none⟩, 2,
          [Cmd.resolve, Cmd.statusJson (str "/usr/bin/openclaw")]) ∧
      (some (str "http://h") : Option Str).isSome = true := by
  exact ⟨rfl, rfl⟩

/-- The invariant holds for every status the payload branch builds from a
payload without a top-level boolean `running` field. -/
theorem statusFromPayload_inv (payload : List (Str × JVal)) (s : GatewayStatus)
    (hnb : ∀ b : Bool, objGet payload (str "running") ≠ some (JVal.bool b))
    (hs : statusFromPayload payload = some s) :
    (s.url.isSome = true → s.running = true) ∧
      (s.error.isSome = true → s.running = false) := by
  unfold statusFromPayload at hs
  split at hs
  · exact absurd (by assumption) (hnb _)
  · split at hs
    · rw [← Option.some.inj hs]
      cases hr : isTrueField (objGet _ (str "reachable")) <;> simp [hr]
    · split at hs
      · rw [← Option.some.inj hs]
        cases hr : isTrueField (objGet _ (str "ok")) <;> simp [hr]
      · cases hs

/-- Claim C2 as amended — the invariant (`url` present only when running;
`error` present only when not running) holds for every result of the
parsing layer whose JSON payload does not carry a top-level boolean
`running` field, i.e. for the nested `gateway`/`rpc` shapes and for the
text heuristics; when the payload has a boolean `running` field, `url` and
`error` are passed through from the payload regardless of `running`. -/
theorem status_url_invariant_amended (raw : Str)
    (hnb : ∀ (fields : List (Str × JVal)) (b : Bool),
      parseJsonObject raw = some fields →
      objGet fields (str "running") ≠ some (JVal.bool b)) :
    ((parseGatewayOutput raw).url.isSome = true →
      (parseGatewayOutput raw).running = true) ∧
    ((parseGatewayOutput raw).error.isSome = true →
      (parseGatewayOutput raw).running = false) := by
  unfold parseGatewayOutput
  cases hs : parseStatusOutput raw with
  | none =>
    by_cases he : jsTrim raw = []
    · simp [he]
    · simp only [if_neg he]
      cases hr : isRunningB (jsTrim raw) <;> simp [hr]
  | some s =>
    simp only []
    unfold parseStatusOutput at hs
    cases hp : parseJsonObject raw with
    | none => rw [hp] at hs; cases hs
    | some fields =>
      rw [hp] at hs
      exact statusFromPayload_inv fields s (fun b => hnb fields b hp) hs

/-- The `gateway`-shape status text used by the C2 witness. -/
def gwShapeRaw : Str :=
  str "\x7b\"gateway\":\x7b\"reachable\":true,\"url\":\"ws://a:1\"\x7d\x7d"

/-- Its parsed payload. -/
def gwShapePayload : List (Str × JVal) :=
  [(str "gateway", JVal.obj
    [(str "reachable", JVal.bool true), (str "url", JVal.str (str "ws://a:1"))])]

/-- Witness for C2 (amended): the nested `gateway` shape satisfies the
invariant. -/
theorem status_url_invariant_amended_witness :
    ((parseGatewayOutput gwShapeRaw).url.isSome = true →
      (parseGatewayOutput gwShapeRaw).running = true) ∧
    ((parseGatewayOutput gwShapeRaw).error.isSome = true →
      (parseGatewayOutput gwShapeRaw).running = false) :=
  status_url_invariant_amended gwShapeRaw
    (by
      intro fields b hp hg
      have hpe : parseJsonObject gwShapeRaw = some gwShapePayload := rfl
      have hf : gwShapePayload = fields := Option.some.inj (hpe.symm.trans hp)
      rw [← hf] at hg
      have hgn : objGet gwShapePayload (str "running") = none := rfl
      rw [hgn] at hg
      cases hg)

/-! ## Claim C6: `bashQuote` and the POSIX round trip -/

/-- Character facts used to drive the tokenizer through quoted text. -/
theorem bsc_ne_sqc : ¬ bsc = sqc := by decide

theorem bsc_ne_dqc : ¬ bsc = dqc := by decide

theorem sqc_ne_dqc : ¬ sqc = dqc := by decide

/-- Running the tokenizer in single-quote mode over the quoted replacement
of `s` followed by a closing quote lands back in normal mode having
accumulated exactly `s`. -/
theorem shellSplitAux_quoteRep (s : Str) :
    ∀ (cur : Str) (acc : List Str) (rest : Str),
      shellSplitAux (quoteRep s ++ sqc :: rest) QMode.single (some cur) acc =
        shellSplitAux rest QMode.normal (some (s.reverse ++ cur)) acc := by
  induction s with
  | nil =>
    intro cur acc rest
    simp [quoteRep, shellSplitAux]
  | cons c s ih =>
    intro cur acc rest
    by_cases hc : c = sqc
    · subst hc
      rw [show quoteRep (sqc :: s) = sqc :: bsc :: sqc :: sqc :: quoteRep s by
        simp [quoteRep]]
      rw [show (sqc :: bsc :: sqc :: sqc :: quoteRep s) ++ sqc :: rest =
          sqc :: bsc :: sqc :: sqc :: (quoteRep s ++ sqc :: rest) by simp]
      rw [show shellSplitAux
            (sqc :: bsc :: sqc :: sqc :: (quoteRep s ++ sqc :: rest))
            QMode.single (some cur) acc =
          shellSplitAux (quoteRep s ++ sqc :: rest)
            QMode.single (some (sqc :: cur)) acc by
        simp [shellSplitAux, bsc_ne_sqc, bsc_ne_dqc]]
      rw [ih (sqc :: cur) acc rest]
      simp
    · rw [show quoteRep (c :: s) = c :: quoteRep s by simp [quoteRep, hc]]
      rw [show (c :: quoteRep s) ++ sqc :: rest =
          c :: (quoteRep s ++ sqc :: rest) by simp]
      rw [show shellSplitAux (c :: (quoteRep s ++ sqc :: rest))
            QMode.single (some cur) acc =
          shellSplitAux (quoteRep s ++ sqc :: rest)
            QMode.single (some (c :: cur)) acc by
        simp [shellSplitAux, hc]]
      rw [ih (c :: cur) acc rest]
      simp

/-- Claim C6 — `bashQuote` wraps its argument in single quotes replacing
each embedded quote by quote-backslash-quote-quote; on `it's` it yields
exactly the escape sequence of the claim, and for every input string a
POSIX-shell argument tokenizer splits the quoted output back into exactly
the original string. -/
theorem bashQuote_round_trip :
    bashQuote ['i', 't', sqc, 's'] =
        [sqc, 'i', 't', sqc, bsc, sqc, sqc, 's', sqc] ∧
      ∀ s : Str, shellSplit (bashQuote s) = some [s] := by
  refine ⟨by decide, ?_⟩
  intro s
  unfold shellSplit bashQuote
  rw [show sqc :: quoteRep s ++ [sqc] = sqc :: (quoteRep s ++ sqc :: []) by simp]
  rw [show shellSplitAux (sqc :: (quoteRep s ++ sqc :: [])) QMode.normal none [] =
      shellSplitAux (quoteRep s ++ sqc :: []) QMode.single (some []) [] by
    simp [shellSplitAux]]
  rw [shellSplitAux_quoteRep s [] [] []]
  simp [shellSplitAux, flushWord]

/-! ## Claim C7: idempotent `start()` when already running -/

/-- A status read issues only the two status commands. -/
theorem readGatewayStatusCall_trace (path : Str) (env : Env) (n : Nat)
    (s : GatewayStatus) (k : Nat) (tr : List Cmd)
    (h : readGatewayStatusCall path env n = Except.ok (s, k, tr)) :
    tr = [Cmd.statusJson path] ∨ tr = [Cmd.statusJson path, Cmd.gatewayStatus path] := by
  unfold readGatewayStatusCall at h
  split at h
  · cases h
  · split at h
    · left
      exact (congrArg (fun x => x.2.2) (Except.ok.inj h)).symm
    · split at h
      · cases h
      · right
        exact (congrArg (fun x => x.2.2) (Except.ok.inj h)).symm

/-- Claim C7 — when the CLI path resolves and the initial status query
already reports `running = true`, `start()` returns exactly that status and
its trace consists of the path resolution and the status read alone: it
issues neither the tool's `gateway start` subcommand nor the detached
fallback launch (so a repeated `start()` spawns no second detached
process). -/
theorem start_idempotent_when_running (env : Env) (r0 : CmdRes) (path : Str)
    (s : GatewayStatus) (k : Nat) (tr : List Cmd)
    (h0 : env 0 = Except.ok r0) (hexit : r0.exitCode = 0)
    (htrim : jsTrim r0.stdout = path) (hpath : ¬ path = [])
    (hread : readGatewayStatusCall path env 1 = Except.ok (s, k, tr))
    (hrun : s.running = true) :
    startCall env 0 = Except.ok (s, k, Cmd.resolve :: tr) ∧
      ∀ q : Str, Cmd.startJson q ∉ Cmd.resolve :: tr ∧
        Cmd.fallbackRun q ∉ Cmd.resolve :: tr := by
  have hres : resolveCall env 0 = Except.ok (some path, 1, [Cmd.resolve]) := by
    unfold resolveCall
    rw [h0]
    simp [hexit, htrim, hpath]
  constructor
  · unfold startCall
    rw [hres]
    simp only []
    rw [hread]
    simp [hrun]
  · intro q
    rcases readGatewayStatusCall_trace path env 1 s k tr hread with h | h <;>
      subst h <;> constructor <;> simp

/-- The environment for the C7 witness: the CLI resolves and the first
status query reports running. -/
def envAlreadyRunning : Env := fun n =>
  if n = 0 then Except.ok ⟨str "/usr/bin/openclaw", [], 0, 5⟩
  else Except.ok ⟨str "\x7b\"running\":true,\"url\":\"ws://127.0.0.1:18789\"\x7d", [], 0, 5⟩

/-- Witness for C7 at a concrete environment. -/
theorem start_idempotent_when_running_witness :
    startCall envAlreadyRunning 0 =
        Except.ok (⟨true, some (str "http://127.0.0.1:18789/"), none, none⟩, 2,
          Cmd.resolve :: [Cmd.statusJson (str "/usr/bin/openclaw")]) ∧
      ∀ q : Str,
        Cmd.startJson q ∉ Cmd.resolve :: [Cmd.statusJson (str "/usr/bin/openclaw")] ∧
        Cmd.fallbackRun q ∉ Cmd.resolve :: [Cmd.statusJson (str "/usr/bin/openclaw")] :=
  start_idempotent_when_running envAlreadyRunning
    ⟨str "/usr/bin/openclaw", [], 0, 5⟩ (str "/usr/bin/openclaw")
    ⟨true, some (str "http://127.0.0.1:18789/"), none, none⟩ 2
    [Cmd.statusJson (str "/usr/bin/openclaw")]
    rfl rfl rfl (by decide) rfl rfl

/-! ## Claim C4: error propagation out of `status()` -/

/-- An environment in which every process execution rejects with a
timeout. -/
def envTimeout : Env := fun _ => Except.error PErr.timeout

/-- Counterexample to C4 as stated: a `Timeout` rejection of the very first
sub-call propagates out of `status()` — there is no `try`/`catch` in
`status`, `readGatewayStatus` or `resolveOpenClawPath` — so `status()` does
not return a `GatewayStatus` at all on this environment. -/
theorem status_propagates_timeout :
    statusCall envTimeout 0 = Except.error PErr.timeout := rfl

/-- Every sub-call resolves (no rejection). -/
def allOk (env : Env) : Prop := ∀ n, ∃ r, env n = Except.ok r

/-- Claim C4 as amended — whenever the underlying sub-calls all resolve
(with any exit codes and any output), `status()` returns a well-formed
`GatewayStatus`; if moreover both status queries are unparseable (no
structured parse and no running heuristic), that status has
`running = false`.  A `Timeout`/`LaunchError` rejection, however, is not
caught and propagates to the caller. -/
theorem status_total_when_resolved (env : Env) (h : allOk env) :
    ∃ (s : GatewayStatus) (k : Nat) (tr : List Cmd),
      statusCall env 0 = Except.ok (s, k, tr) ∧
        (∀ r1 r2, env 1 = Except.ok r1 → env 2 = Except.ok r2 →
          parseStatusOutput r1.stdout = none →
          parseStatusOutput r2.stdout = none →
          isRunningB (jsTrim r2.stdout) = false →
          s.running = false) := by
  obtain ⟨r0, h0⟩ := h 0
  obtain ⟨r1, h1⟩ := h 1
  obtain ⟨r2, h2⟩ := h 2
  by_cases hexit : r0.exitCode = 0
  · by_cases htrim : jsTrim r0.stdout = []
    · refine ⟨⟨false, none, none, some notFoundMsg⟩, 1, [Cmd.resolve], ?_, ?_⟩
      · unfold statusCall resolveCall
        rw [h0]
        simp [hexit, htrim]
      · intro _ _ _ _ _ _ _
        rfl
    · have hres : resolveCall env 0 =
          Except.ok (some (jsTrim r0.stdout), 1, [Cmd.resolve]) := by
        unfold resolveCall
        rw [h0]
        simp [hexit, htrim]
      cases hp1 : parseStatusOutput r1.stdout with
      | some s1 =>
        refine ⟨s1, 2, [Cmd.resolve, Cmd.statusJson (jsTrim r0.stdout)], ?_, ?_⟩
        · unfold statusCall
          rw [hres]
          simp only []
          unfold readGatewayStatusCall
          simp only [h1, hp1]
          rfl
        · intro r1' _ h1' _ hp1' _ _
          rw [h1] at h1'
          cases Except.ok.inj h1'
          rw [hp1] at hp1'
          cases hp1'
      | none =>
        refine ⟨parseGatewayOutput r2.stdout, 3,
          [Cmd.resolve, Cmd.statusJson (jsTrim r0.stdout),
            Cmd.gatewayStatus (jsTrim r0.stdout)], ?_, ?_⟩
        · unfold statusCall
          rw [hres]
          simp only []
          unfold readGatewayStatusCall
          simp only [h1, hp1, h2]
          rfl
        · intro r1' r2' _ h2' _ hp2' hsig'
          rw [h2] at h2'
          cases Except.ok.inj h2'
          unfold parseGatewayOutput
          rw [hp2']
          by_cases he : jsTrim r2.stdout = []
          · simp [he]
          · simp [he, hsig']
  · refine ⟨⟨false, none, none, some notFoundMsg⟩, 1, [Cmd.resolve], ?_, ?_⟩
    · unfold statusCall resolveCall
      rw [h0]
      simp [hexit]
    · intro _ _ _ _ _ _ _
      rfl

/-- Witness for C4 (amended): an all-resolving environment whose lookup
fails, so `status()` reports the CLI as missing without raising. -/
theorem status_total_when_resolved_witness :
    ∃ (s : GatewayStatus) (k : Nat) (tr : List Cmd),
      statusCall (fun _ => Except.ok ⟨[], [], 1, 0⟩) 0 = Except.ok (s, k, tr) ∧
        (∀ r1 r2, (fun _ => Except.ok ⟨[], [], 1, 0⟩ : Env) 1 = Except.ok r1 →
          (fun _ => Except.ok ⟨[], [], 1, 0⟩ : Env) 2 = Except.ok r2 →
          parseStatusOutput r1.stdout = none →
          parseStatusOutput r2.stdout = none →
          isRunningB (jsTrim r2.stdout) = false →
          s.running = false) :=
  status_total_when_resolved (fun _ => Except.ok ⟨[], [], 1, 0⟩)
    (fun _ => ⟨⟨[], [], 1, 0⟩, rfl⟩)

/-! ## Claim C1: the failover tick -/

/-- Claim C1 — a tick fails over exactly when it runs in normal mode with
the active provider's health entry not ok, the incremented failure counter
at the threshold 3, and a best healthy provider different from the active
one; such a tick performs exactly one `applyProfile`, one notification
naming old and new provider, one gateway stop followed by one gateway
start (in that order), sets the best provider active and clears every
failure counter; every other tick performs none of these actions. -/
theorem supervisor_failover_tick (io : Bool) (cfg : List ProviderId)
    (health : List ProviderHealth) (se : Bool) (st : SupState) :
    (∀ best active, chooseBestProvider health = some best →
      bootActive health st = some active →
      ((failoverFires io health st best active →
          runCheck io cfg health se st =
            (⟨fun _ => 0, some best⟩, failoverActions cfg se active best)) ∧
        (¬ failoverFires io health st best active →
          (runCheck io cfg health se st).2 = [])))
    ∧ (chooseBestProvider health = none → runCheck io cfg health se st = (st, [])) := by
  constructor
  · intro best active hb ha
    unfold bootActive at ha
    unfold failoverFires
    unfold runCheck
    cases hap : st.activeProvider with
    | none =>
      rw [hap] at ha
      simp only [Option.isNone_none, if_pos] at ha
      have hba : best = active := Option.some.inj (hb.symm.trans ha)
      subst hba
      constructor
      · intro hf
        exact absurd rfl hf.2.2.2
      · intro _
        by_cases hok : activeOkIn health best = true
        · simp [hb, hap, hok]
        · rw [Bool.not_eq_true] at hok
          simp [hb, hap, hok]
    | some a0 =>
      rw [hap] at ha
      simp only [Option.isNone_some, if_neg, Bool.false_eq_true] at ha
      have haa : a0 = active := Option.some.inj ha
      subst haa
      by_cases hok : activeOkIn health a0 = true
      · constructor
        · intro hf
          rw [hf.1] at hok
          cases hok
        · intro _
          simp [hb, hap, hok]
      · rw [Bool.not_eq_true] at hok
        constructor
        · rintro ⟨-, hio, hsf, hne⟩
          simp [hb, hap, hok, hio, hsf, hne]
        · intro hnf
          have hcond : ¬ (io = false ∧
              shouldFailover (st.failureCounts a0 + 1) 3 = true ∧ best ≠ a0) :=
            fun hc => hnf ⟨hok, hc.1, hc.2.1, hc.2.2⟩
          simp only [hb, hap]
          simp [hap, hok, hcond]
  · intro hnone
    unfold runCheck
    rw [hnone]

/-- A snapshot where the active `deepseek` is unhealthy and `openai` is
healthy. -/
def healthDeepseekDown : List ProviderHealth :=
  [⟨ProviderId.deepseek, false, 300, none⟩, ⟨ProviderId.openai, true, 100, none⟩]

/-- Supervisor state after two unhealthy ticks for active `deepseek`. -/
def stTwoFailures : SupState :=
  ⟨fun p => if p = ProviderId.deepseek then 2 else 0, some ProviderId.deepseek⟩

/-- Witness for C1: the third consecutive unhealthy tick in normal mode
fires exactly one failover to `openai`. -/
theorem supervisor_failover_tick_witness :
    runCheck false [ProviderId.deepseek, ProviderId.openai] healthDeepseekDown
        true stTwoFailures =
      (⟨fun _ => 0, some ProviderId.openai⟩,
        failoverActions [ProviderId.deepseek, ProviderId.openai] true
          ProviderId.deepseek ProviderId.openai) :=
  ((supervisor_failover_tick false [ProviderId.deepseek, ProviderId.openai]
      healthDeepseekDown true stTwoFailures).1
    ProviderId.openai ProviderId.deepseek (by decide) rfl).1
    ⟨by decide, rfl, by decide, by decide⟩
